import Mathlib

/-!
Verification of the two-view initializer (`Initializer.cc`) and local-mapping
control logic (`LocalMapping.cc`) of a monocular point-and-line SLAM system.

The C++ code is shallowly embedded: every float value is modelled as an exact
rational (`ℚ`); `static_cast<int>` of a nonnegative float is modelled by
`Int.toNat ∘ Int.floor` (truncation toward zero); third-party numeric kernels
(OpenCV SVD triangulation, `acos`, vector norms) are inputs of the embedded
functions, never re-implemented, so every theorem quantifies over their
possible outputs.
-/

namespace PLSLAM

/-- Rational 3-vector, modelling a `cv::Mat` 3×1 or a `cv::Point3f`. -/
structure V3 where
  x : ℚ
  y : ℚ
  z : ℚ
deriving DecidableEq

/-- Rational 3×3 matrix, modelling a `CV_32F` 3×3 `cv::Mat`. -/
structure Mat3 where
  m11 : ℚ
  m12 : ℚ
  m13 : ℚ
  m21 : ℚ
  m22 : ℚ
  m23 : ℚ
  m31 : ℚ
  m32 : ℚ
  m33 : ℚ
deriving DecidableEq

/-- Matrix-vector product `A*v`. -/
def mat3App (A : Mat3) (v : V3) : V3 :=
  ⟨A.m11 * v.x + A.m12 * v.y + A.m13 * v.z,
   A.m21 * v.x + A.m22 * v.y + A.m23 * v.z,
   A.m31 * v.x + A.m32 * v.y + A.m33 * v.z⟩

/-- Vector sum. -/
def v3Add (a b : V3) : V3 := ⟨a.x + b.x, a.y + b.y, a.z + b.z⟩

/-- Which reconstruction `Initializer::Initialize` attempts. -/
inductive ReconModel
  | homography
  | fundamental
deriving DecidableEq

/-- Model-selection step of `Initializer::Initialize` (Initializer.cc lines
134-143): `RH = SH/(SH+SF)`; if `RH > 0.40` attempt `ReconstructH`, else
`ReconstructF`. -/
def initializeModelChoice (SH SF : ℚ) : ReconModel :=
  let RH := SH / (SH + SF)
  if RH > 0.40 then ReconModel.homography else ReconModel.fundamental

/-- Computation `maxGood = max(nGood1, max(nGood2, max(nGood3, nGood4)))`
(Initializer.cc line 670). -/
def fMaxGood (g1 g2 g3 g4 : ℕ) : ℕ := max g1 (max g2 (max g3 g4))

/-- Computation `nMinGood = max(static_cast<int>(0.9*N), minTriangulated)`
(Initializer.cc line 675); the C++ cast truncates the nonnegative double
`0.9*N`. -/
def fNMinGood (N minTriangulated : ℕ) : ℕ :=
  max (Int.toNat ⌊(0.9 : ℚ) * (N : ℚ)⌋) minTriangulated

/-- Count `nsimilar`: how many of the four hypotheses satisfy
`nGood_i > 0.7*maxGood` (Initializer.cc lines 677-685). -/
def fNSimilar (g1 g2 g3 g4 : ℕ) : ℕ :=
  let maxGood := fMaxGood g1 g2 g3 g4
  (if (g1 : ℚ) > 0.7 * (maxGood : ℚ) then 1 else 0) +
  (if (g2 : ℚ) > 0.7 * (maxGood : ℚ) then 1 else 0) +
  (if (g3 : ℚ) > 0.7 * (maxGood : ℚ) then 1 else 0) +
  (if (g4 : ℚ) > 0.7 * (maxGood : ℚ) then 1 else 0)

/-- Decision core of `Initializer::ReconstructF` (Initializer.cc lines
644-742), as a function of the inlier count `N`, the four `CheckRT` counts
`g1..g4`, the four parallax angles in degrees `p1..p4`, `minParallax` and
`minTriangulated`.  `some i` means hypothesis `i` is accepted and its
`R`, `t`, points and flags are copied out; `none` means `return false` with
`R21`/`t21` left as the empty `cv::Mat()` set at lines 672-673 and
`vP3D`/`vbTriangulated` untouched. -/
def reconstructFDecision (N g1 g2 g3 g4 : ℕ) (p1 p2 p3 p4 : ℚ)
    (minParallax : ℚ) (minTriangulated : ℕ) : Option (Fin 4) :=
  let maxGood := fMaxGood g1 g2 g3 g4
  if maxGood < fNMinGood N minTriangulated ∨ fNSimilar g1 g2 g3 g4 > 1 then
    none
  else if maxGood = g1 then
    (if p1 > minParallax then some 0 else none)
  else if maxGood = g2 then
    (if p2 > minParallax then some 1 else none)
  else if maxGood = g3 then
    (if p3 > minParallax then some 2 else none)
  else if maxGood = g4 then
    (if p4 > minParallax then some 3 else none)
  else none

/-- Loop state of the best/second-best search of `Initializer::ReconstructH`
(Initializer.cc lines 866-895): `bestGood`, `secondBestGood`,
`bestSolutionIdx` (`none` models the initial `-1`), `bestParallax`. -/
structure HState where
  bestGood : ℕ
  secondBestGood : ℕ
  bestIdx : Option ℕ
  bestParallax : ℚ
deriving DecidableEq

/-- Initial loop state (`bestGood = 0`, `secondBestGood = 0`,
`bestSolutionIdx = -1`, `bestParallax = -1`). -/
def hInit : HState := ⟨0, 0, none, -1⟩

/-- The `for(size_t i=0; i<8; i++)` loop of `Initializer::ReconstructH`
(lines 875-895) over the hypotheses `(nGood_i, parallax_i)`. -/
def hLoop : ℕ → HState → List (ℕ × ℚ) → HState
  | _, st, [] => st
  | i, st, (g, p) :: rest =>
    if g > st.bestGood then
      hLoop (i + 1) ⟨g, st.bestGood, some i, p⟩ rest
    else if g > st.secondBestGood then
      hLoop (i + 1) { st with secondBestGood := g } rest
    else
      hLoop (i + 1) st rest

/-- Decision core of `Initializer::ReconstructH` (Initializer.cc lines
866-912): run the best/second-best search over the `(nGood, parallax)` pairs
of the 8 Faugeras hypotheses, then accept iff
`secondBestGood < 0.75*bestGood && bestParallax >= minParallax &&
bestGood > minTriangulated && bestGood > 0.9*N` (line 898).  `some i`
means hypothesis `i` is accepted with `R`, `t` and triangulations copied
out; `none` means `return false`. -/
def reconstructHDecision (N : ℕ) (hyps : List (ℕ × ℚ))
    (minParallax : ℚ) (minTriangulated : ℕ) : Option ℕ :=
  let st := hLoop 0 hInit hyps
  if (st.secondBestGood : ℚ) < 0.75 * (st.bestGood : ℚ) ∧
      st.bestParallax ≥ minParallax ∧
      st.bestGood > minTriangulated ∧
      (st.bestGood : ℚ) > 0.9 * (N : ℚ) then
    st.bestIdx
  else
    none

/-- One point match, in undistorted pixel coordinates:
`(u1,v1) = mvKeys1[match.first].pt`, `(u2,v2) = mvKeys2[match.second].pt`. -/
structure MatchPts where
  u1 : ℚ
  v1 : ℚ
  u2 : ℚ
  v2 : ℚ
deriving DecidableEq

/-- First-direction chi-square of `Initializer::CheckFundamental`
(Initializer.cc lines 586-594): distance of `(u2,v2)` to the epipolar line
`l2 = F21*(u1,v1,1)`, squared, over `a2^2+b2^2`, times `1/sigma^2`. -/
def fundChi1 (F : Mat3) (sigma : ℚ) (m : MatchPts) : ℚ :=
  let a2 := F.m11 * m.u1 + F.m12 * m.v1 + F.m13
  let b2 := F.m21 * m.u1 + F.m22 * m.v1 + F.m23
  let c2 := F.m31 * m.u1 + F.m32 * m.v1 + F.m33
  let num2 := a2 * m.u2 + b2 * m.v2 + c2
  let squareDist1 := num2 * num2 / (a2 * a2 + b2 * b2)
  squareDist1 * (1 / (sigma * sigma))

/-- Second-direction chi-square of `Initializer::CheckFundamental`
(Initializer.cc lines 604-612): distance of `(u1,v1)` to
`l1 = (u2,v2,1)^T*F21`. -/
def fundChi2 (F : Mat3) (sigma : ℚ) (m : MatchPts) : ℚ :=
  let a1 := F.m11 * m.u2 + F.m21 * m.v2 + F.m31
  let b1 := F.m12 * m.u2 + F.m22 * m.v2 + F.m32
  let c1 := F.m13 * m.u2 + F.m23 * m.v2 + F.m33
  let num1 := a1 * m.u1 + b1 * m.v1 + c1
  let squareDist2 := num1 * num1 / (a1 * a1 + b1 * b1)
  squareDist2 * (1 / (sigma * sigma))

/-- Per-match body of the `Initializer::CheckFundamental` loop
(Initializer.cc lines 571-623): `bIn` starts `true`; each direction with
`chiSquare > th` (`th = 3.841`) clears `bIn`, and each direction with
`chiSquare <= th` adds `thScore - chiSquare` (`thScore = 5.991`) to the
score.  Returns `(vbMatchesInliers[i], score contribution)`. -/
def checkFundamentalMatch (F : Mat3) (sigma : ℚ) (m : MatchPts) : Bool × ℚ :=
  let chiSquare1 := fundChi1 F sigma m
  let st1 : Bool × ℚ :=
    if chiSquare1 > 3.841 then (false, 0) else (true, 0 + (5.991 - chiSquare1))
  let chiSquare2 := fundChi2 F sigma m
  if chiSquare2 > 3.841 then (false, st1.2) else (st1.1, st1.2 + (5.991 - chiSquare2))

/-- Embedded `Initializer::CheckFundamental` over the whole match list: the inlier
flags and the accumulated score (Initializer.cc lines 548-626). -/
def checkFundamental (F : Mat3) (sigma : ℚ) (ms : List MatchPts) : List Bool × ℚ :=
  ms.foldl
    (fun acc m =>
      let r := checkFundamentalMatch F sigma m
      (acc.1 ++ [r.1], acc.2 + r.2))
    ([], 0)

/-- First-direction chi-square of `Initializer::CheckHomography`
(Initializer.cc lines 510-516): reprojection of `(u2,v2)` into image 1 by
`H12`, squared pixel error over `sigma^2`. -/
def homChi1 (H12 : Mat3) (sigma : ℚ) (m : MatchPts) : ℚ :=
  let w2in1inv := 1 / (H12.m31 * m.u2 + H12.m32 * m.v2 + H12.m33)
  let u2in1 := (H12.m11 * m.u2 + H12.m12 * m.v2 + H12.m13) * w2in1inv
  let v2in1 := (H12.m21 * m.u2 + H12.m22 * m.v2 + H12.m23) * w2in1inv
  let squareDist1 := (m.u1 - u2in1) * (m.u1 - u2in1) + (m.v1 - v2in1) * (m.v1 - v2in1)
  squareDist1 * (1 / (sigma * sigma))

/-- Second-direction chi-square of `Initializer::CheckHomography`
(Initializer.cc lines 526-532): reprojection of `(u1,v1)` into image 2 by
`H21`. -/
def homChi2 (H21 : Mat3) (sigma : ℚ) (m : MatchPts) : ℚ :=
  let w1in2inv := 1 / (H21.m31 * m.u1 + H21.m32 * m.v1 + H21.m33)
  let u1in2 := (H21.m11 * m.u1 + H21.m12 * m.v1 + H21.m13) * w1in2inv
  let v1in2 := (H21.m21 * m.u1 + H21.m22 * m.v1 + H21.m23) * w1in2inv
  let squareDist2 := (m.u2 - u1in2) * (m.u2 - u1in2) + (m.v2 - v1in2) * (m.v2 - v1in2)
  squareDist2 * (1 / (sigma * sigma))

/-- Per-match body of the `Initializer::CheckHomography` loop
(Initializer.cc lines 495-543): both threshold and score constant are
`th = 5.991`. -/
def checkHomographyMatch (H21 H12 : Mat3) (sigma : ℚ) (m : MatchPts) : Bool × ℚ :=
  let chiSquare1 := homChi1 H12 sigma m
  let st1 : Bool × ℚ :=
    if chiSquare1 > 5.991 then (false, 0) else (true, 0 + (5.991 - chiSquare1))
  let chiSquare2 := homChi2 H21 sigma m
  if chiSquare2 > 5.991 then (false, st1.2) else (st1.1, st1.2 + (5.991 - chiSquare2))

/-- Embedded `Initializer::CheckHomography` over the whole match list
(Initializer.cc lines 463-546). -/
def checkHomography (H21 H12 : Mat3) (sigma : ℚ) (ms : List MatchPts) : List Bool × ℚ :=
  ms.foldl
    (fun acc m =>
      let r := checkHomographyMatch H21 H12 sigma m
      (acc.1 ++ [r.1], acc.2 + r.2))
    ([], 0)

/-- Calibration parameters read from `K` at the top of
`Initializer::CheckRT` (Initializer.cc lines 990-993). -/
structure Intrinsics where
  fx : ℚ
  fy : ℚ
  cx : ℚ
  cy : ℚ
deriving DecidableEq

/-- Per-match input of `Initializer::CheckRT`.  `inlier` is
`vbMatchesInliers[i]`; `first` is `vMatches12[i].first`; `(kp1x,kp1y)` and
`(kp2x,kp2y)` are the two undistorted keypoints.  `tri` is the output of
`Triangulate` (an OpenCV SVD solve, external to this repository): `none`
models a result with a non-finite coordinate, caught by the `isfinite`
check at line 1034.  `cosPar` is the cosine of the parallax angle computed
at lines 1042-1048 from `p3dC1` and the two camera centres; it involves
`cv::norm` square roots, so it is carried as oracle data alongside `tri`. -/
structure RTMatch where
  inlier : Bool
  first : ℕ
  kp1x : ℚ
  kp1y : ℚ
  kp2x : ℚ
  kp2y : ℚ
  tri : Option V3
  cosPar : ℚ
deriving DecidableEq

/-- Running state of the `Initializer::CheckRT` loop: `nGood`, the
`vCosParallax` accumulator, `vP3D` and `vbGood`. -/
structure RTState where
  nGood : ℕ
  cosList : List ℚ
  vP3D : List V3
  vbGood : List Bool
deriving DecidableEq

/-- One iteration of the `Initializer::CheckRT` match loop (Initializer.cc
lines 1021-1093): skip non-inliers; on a non-finite triangulation set
`vbGood[first] = false` and continue; reject behind-camera points unless
`cosParallax >= 0.99998`; reject reprojection error `> th2` in either
image; otherwise record the cos-parallax, store the 3D point, increment
`nGood`, and set `vbGood[first] = true` only when `cosParallax < 0.99998`. -/
def checkRTStep (R : Mat3) (t : V3) (Kc : Intrinsics) (th2 : ℚ)
    (st : RTState) (m : RTMatch) : RTState :=
  if m.inlier = false then st
  else
    match m.tri with
    | none => { st with vbGood := st.vbGood.set m.first false }
    | some p3dC1 =>
      if p3dC1.z ≤ 0 ∧ m.cosPar < 0.99998 then st
      else
        let p3dC2 := v3Add (mat3App R p3dC1) t
        if p3dC2.z ≤ 0 ∧ m.cosPar < 0.99998 then st
        else
          let invZ1 := 1 / p3dC1.z
          let im1x := Kc.fx * p3dC1.x * invZ1 + Kc.cx
          let im1y := Kc.fy * p3dC1.y * invZ1 + Kc.cy
          let squareError1 := (im1x - m.kp1x) * (im1x - m.kp1x) + (im1y - m.kp1y) * (im1y - m.kp1y)
          if squareError1 > th2 then st
          else
            let invZ2 := 1 / p3dC2.z
            let im2x := Kc.fx * p3dC2.x * invZ2 + Kc.cx
            let im2y := Kc.fy * p3dC2.y * invZ2 + Kc.cy
            let squareError2 := (im2x - m.kp2x) * (im2x - m.kp2x) + (im2y - m.kp2y) * (im2y - m.kp2y)
            if squareError2 > th2 then st
            else
              { nGood := st.nGood + 1,
                cosList := st.cosList ++ [m.cosPar],
                vP3D := st.vP3D.set m.first p3dC1,
                vbGood := if m.cosPar < 0.99998 then st.vbGood.set m.first true else st.vbGood }

/-- Ascending insertion into a sorted list (used to model `std::sort` on
`vCosParallax`). -/
def insertQ (x : ℚ) : List ℚ → List ℚ
  | [] => [x]
  | y :: ys => if x ≤ y then x :: y :: ys else y :: insertQ x ys

/-- Ascending sort of the `vCosParallax` vector (`sort(begin,end)` at
Initializer.cc line 1099). -/
def sortQ : List ℚ → List ℚ
  | [] => []
  | x :: xs => insertQ x (sortQ xs)

/-- Output of `Initializer::CheckRT`.  The C++ function returns
`parallax = acos(vCosParallax[idx])*180/CV_PI` for the selected sorted
index `idx`, and `parallax = 0` when `nGood = 0`; since `acos` is a fixed
strictly-decreasing transcendental map, the embedding reports the selected
cosine as `parallaxCos : Option ℚ`, with `none` standing for the
`nGood = 0` branch that sets `parallax = 0`. -/
structure RTOut where
  nGood : ℕ
  vP3D : List V3
  vbGood : List Bool
  cosList : List ℚ
  parallaxCos : Option ℚ
deriving DecidableEq

/-- Embedded `Initializer::CheckRT` (Initializer.cc lines 985-1110): `vbGood` is
initialised to `vKeys1.size()` falses and `vP3D` resized to the same length
(`cv::Point3f` default-initialises to the origin); the match loop runs, and
the parallax is the `acos` of the sorted cos-parallax at index
`min(50, int(vCosParallax.size()-1))` when `nGood > 0`, else 0. -/
def checkRT (R : Mat3) (t : V3) (Kc : Intrinsics) (nKeys1 : ℕ) (th2 : ℚ)
    (ms : List RTMatch) : RTOut :=
  let st0 : RTState := ⟨0, [], List.replicate nKeys1 ⟨0, 0, 0⟩, List.replicate nKeys1 false⟩
  let st := ms.foldl (checkRTStep R t Kc th2) st0
  { nGood := st.nGood,
    vP3D := st.vP3D,
    vbGood := st.vbGood,
    cosList := st.cosList,
    parallaxCos :=
      if st.nGood > 0 then
        some ((sortQ st.cosList).getD (min 50 (st.cosList.length - 1)) 0)
      else none }

/-- Per-match input of `Initializer::ReconstructLine`.  `first`/`second`
are `vLineMatches[i]`.  `accepted` abstracts, as oracle data, the outcome
of the sequential filter gates at Initializer.cc lines 1284-1313 (epipolar
direction-consistency tests with `cv::norm`, `isfinite` of the SVD line
triangulation, and the two cos-parallax tests): `true` means control
reaches the writes at lines 1315-1317 and 1367.  `s3d`/`e3d` are the
triangulated endpoints produced by `LineTriangulate` (OpenCV SVD,
external). -/
structure LineMatch where
  first : ℕ
  second : ℕ
  accepted : Bool
  s3d : V3
  e3d : V3
deriving DecidableEq

/-- Write `l[i] := a` with an explicit bounds check: `none` models the undefined
behaviour of writing `vector[i]` with `i >= size()`. -/
def setChecked {α : Type} (l : List α) (i : ℕ) (a : α) : Option (List α) :=
  if i < l.length then some (l.set i a) else none

/-- The three output vectors of `Initializer::ReconstructLine`. -/
structure LineOut where
  vLineS3D : List V3
  vLineE3D : List V3
  vbLineTriangulated : List Bool
deriving DecidableEq

/-- One iteration of the `Initializer::ReconstructLine` match loop: a
rejected match writes nothing; an accepted match writes
`vLineS3D[first]`, `vLineE3D[first]` (lines 1315-1316) and
`vbLineTriangulated[first] = true` (line 1367). -/
def reconstructLineStep (acc : Option LineOut) (m : LineMatch) : Option LineOut :=
  match acc with
  | none => none
  | some st =>
    if m.accepted = false then some st
    else
      match setChecked st.vLineS3D m.first m.s3d,
            setChecked st.vLineE3D m.first m.e3d,
            setChecked st.vbLineTriangulated m.first true with
      | some s, some e, some b => some ⟨s, e, b⟩
      | _, _, _ => none

/-- Embedded `Initializer::ReconstructLine` (Initializer.cc lines 1214-1369),
restricted to its writes into the three output vectors.  The vectors are
resized to `nKeys1 = mvKeys1.size()` — the reference frame's POINT-feature
count — with `Point3f(0,0,0)` / `false` fill (lines 1222-1224); `none`
means some accepted line match indexed past that length. -/
def reconstructLine (nKeys1 : ℕ) (ms : List LineMatch) : Option LineOut :=
  ms.foldl reconstructLineStep
    (some ⟨List.replicate nKeys1 ⟨0, 0, 0⟩, List.replicate nKeys1 ⟨0, 0, 0⟩,
           List.replicate nKeys1 false⟩)

/-- One entry of a MapPoint's observation map: the observing keyframe's id
and the octave of its observing keypoint
(`pKFi->mvKeysUn[mit->second].octave`). -/
structure ObsM where
  kfId : ℕ
  octave : ℕ
deriving DecidableEq

/-- A MapPoint as seen from one slot of a keyframe's match vector: its bad
flag, the octave of ITS keypoint in that keyframe
(`pKF->mvKeysUn[i].octave`), and its observation map. -/
structure PointM where
  bad : Bool
  octave : ℕ
  obs : List ObsM
deriving DecidableEq

/-- A keyframe for `KeyFrameCulling`: its `mnId` and its MapPoint match
vector (`none` models a null `MapPoint*`). -/
structure KeyFrameM where
  id : ℕ
  pts : List (Option PointM)
deriving DecidableEq

/-- The redundancy test for one MapPoint of the keyframe `selfId` under
culling (LocalMapping.cc lines 1862-1886): the point must have
`Observations() > thObs` (`thObs = 3`) in total, and at least `thObs = 3`
observing keyframes other than `selfId` whose observing octave satisfies
`scaleLeveli <= scaleLevel + 1`. -/
def pointRedundant (selfId : ℕ) (p : PointM) : Bool :=
  decide (3 < p.obs.length) &&
  decide (3 ≤ (p.obs.filter
    (fun o => decide (o.kfId ≠ selfId) && decide (o.octave ≤ p.octave + 1))).length)

/-- Pair `(nMPs, nRedundantObservations)` for one keyframe (LocalMapping.cc
lines 1850-1890; monocular pipeline, so the `!mbMonocular` depth filter is
inactive): null or bad MapPoints are skipped. -/
def kfStats (kf : KeyFrameM) : ℕ × ℕ :=
  kf.pts.foldl
    (fun acc op =>
      match op with
      | none => acc
      | some p =>
        if p.bad then acc
        else (acc.1 + 1, acc.2 + (if pointRedundant kf.id p then 1 else 0)))
    (0, 0)

/-- Whether `KeyFrameCulling` flags one covisible keyframe bad: the initial
keyframe (`mnId == 0`) is skipped (line 1845), and otherwise
`SetBadFlag()` is called iff `nRedundantObservations > 0.9*nMPs`
(line 1892). -/
def kfCulled (kf : KeyFrameM) : Bool :=
  decide (kf.id ≠ 0) &&
  decide (((kfStats kf).2 : ℚ) > (0.9 : ℚ) * ((kfStats kf).1 : ℚ))

/-- Embedded `LocalMapping::KeyFrameCulling` (LocalMapping.cc lines 1835-1895) over
the covisible keyframes of the current keyframe: which of them get
`SetBadFlag()`. -/
def keyFrameCulling (covis : List KeyFrameM) : List Bool :=
  covis.map kfCulled

/-- Control state of `LocalMapping`: the eight boolean flags initialised by
the constructor (LocalMapping.cc lines 33-37) and the new-keyframe queue
(keyframes stand in as ids). -/
structure LMState where
  mbResetRequested : Bool
  mbFinishRequested : Bool
  mbFinished : Bool
  mbAbortBA : Bool
  mbStopped : Bool
  mbStopRequested : Bool
  mbNotStop : Bool
  mbAcceptKeyFrames : Bool
  mlNewKeyFrames : List ℕ
deriving DecidableEq

/-- The state established by the `LocalMapping` constructor
(LocalMapping.cc lines 33-37): all flags `false` except
`mbFinished = true` and `mbAcceptKeyFrames = true`, empty queue. -/
def lmConstructed : LMState :=
  ⟨false, false, true, false, false, false, false, true, []⟩

/-- A mapper whose `Run()` loop has started: `Run` sets
`mbFinished = false` at LocalMapping.cc line 51 before entering the loop. -/
def lmRunning : LMState := { lmConstructed with mbFinished := false }

/-- Embedded `LocalMapping::RequestStop` (LocalMapping.cc lines 1758-1764): sets
`mbStopRequested = true` and `mbAbortBA = true`. -/
def lmRequestStop (s : LMState) : LMState :=
  { s with mbStopRequested := true, mbAbortBA := true }

/-- Embedded `LocalMapping::InsertKeyFrame` (LocalMapping.cc lines 136-141):
appends to the queue and sets `mbAbortBA = true`. -/
def lmInsertKeyFrame (s : LMState) (k : ℕ) : LMState :=
  { s with mlNewKeyFrames := s.mlNewKeyFrames ++ [k], mbAbortBA := true }

/-- Embedded `LocalMapping::Release` (LocalMapping.cc lines 1791-1804): no-op when
`mbFinished`; otherwise clears `mbStopped` and `mbStopRequested` and
deletes every queued keyframe.  It does NOT touch `mbAbortBA`. -/
def lmRelease (s : LMState) : LMState :=
  if s.mbFinished then s
  else { s with mbStopped := false, mbStopRequested := false, mlNewKeyFrames := [] }

/-- Spec-side count for claim C2, following the claim's words: how many of
the four hypotheses achieve AT LEAST 70% of `maxGood` (the code counts
strict `>` at Initializer.cc lines 678-684). -/
def specNSimilarGE (g1 g2 g3 g4 : ℕ) : ℕ :=
  let maxGood := fMaxGood g1 g2 g3 g4
  (if (g1 : ℚ) ≥ 0.7 * (maxGood : ℚ) then 1 else 0) +
  (if (g2 : ℚ) ≥ 0.7 * (maxGood : ℚ) then 1 else 0) +
  (if (g3 : ℚ) ≥ 0.7 * (maxGood : ℚ) then 1 else 0) +
  (if (g4 : ℚ) ≥ 0.7 * (maxGood : ℚ) then 1 else 0)

/-- Spec-side rejection predicate for claim C2, following the claim's words
with exact arithmetic: `maxGood < max(0.9*N, 50)` (no integer truncation)
or more than one hypothesis at ≥ 70% of `maxGood`. -/
def claimRejectF (N g1 g2 g3 g4 : ℕ) : Bool :=
  decide ((fMaxGood g1 g2 g3 g4 : ℚ) < max ((0.9 : ℚ) * (N : ℚ)) 50) ||
  decide (specNSimilarGE g1 g2 g3 g4 > 1)

/-- Spec-side acceptance predicate for claim C3, following the claim's
words: `best >= minTriangulated` (the code requires strict
`bestGood > minTriangulated` at Initializer.cc line 898). -/
def claimAcceptH (N : ℕ) (hyps : List (ℕ × ℚ)) (minParallax : ℚ)
    (minTriangulated : ℕ) : Bool :=
  decide (((hLoop 0 hInit hyps).secondBestGood : ℚ) <
            0.75 * ((hLoop 0 hInit hyps).bestGood : ℚ)) &&
  decide ((hLoop 0 hInit hyps).bestGood ≥ minTriangulated) &&
  decide (((hLoop 0 hInit hyps).bestGood : ℚ) > 0.9 * (N : ℚ)) &&
  decide ((hLoop 0 hInit hyps).bestParallax ≥ minParallax)

/-- Spec-side redundancy test for claim C7, following the claim's words:
at least 3 OTHER keyframes observe the point at equal-or-finer scale
(`octave <= scaleLevel`, without the code's `+1` slack and without the
code's `Observations() > 3` gate). -/
def pointRedundantSpec (selfId : ℕ) (p : PointM) : Bool :=
  decide (3 ≤ (p.obs.filter
    (fun o => decide (o.kfId ≠ selfId) && decide (o.octave ≤ p.octave))).length)

/-- Pair `(nMPs, spec-redundant count)` for one keyframe under the claim C7
reading. -/
def kfStatsSpec (kf : KeyFrameM) : ℕ × ℕ :=
  kf.pts.foldl
    (fun acc op =>
      match op with
      | none => acc
      | some p =>
        if p.bad then acc
        else (acc.1 + 1, acc.2 + (if pointRedundantSpec kf.id p then 1 else 0)))
    (0, 0)

/-- Spec-side culling condition for claim C7: non-initial keyframe with AT
LEAST 90% of its valid MapPoints spec-redundant. -/
def claimCullCondition (kf : KeyFrameM) : Bool :=
  decide (kf.id ≠ 0) && decide (10 * (kfStatsSpec kf).2 ≥ 9 * (kfStatsSpec kf).1)

/-- A MapPoint making the keyframe-culling 90% boundary concrete: observed
by itself (keyframe 1) and three other keyframes, all at octave 1. -/
def ptRedundantEx : PointM := ⟨false, 1, [⟨1, 1⟩, ⟨2, 1⟩, ⟨3, 1⟩, ⟨4, 1⟩]⟩

/-- A MapPoint observed only by its own keyframe: not redundant. -/
def ptLonelyEx : PointM := ⟨false, 1, [⟨1, 1⟩]⟩

/-- A covisible keyframe with exactly 90% (9 of 10) redundant MapPoints. -/
def kfCullBoundary : KeyFrameM :=
  ⟨1, List.replicate 9 (some ptRedundantEx) ++ [some ptLonelyEx]⟩

/-! ### Helper lemmas -/

/-- If the best/second-best search finishes with no best index, no update
ever fired, so `bestGood` is unchanged. -/
lemma hLoop_bestIdx_none (l : List (ℕ × ℚ)) :
    ∀ (i : ℕ) (st : HState), (hLoop i st l).bestIdx = none →
      st.bestIdx = none ∧ (hLoop i st l).bestGood = st.bestGood := by
  induction l with
  | nil => intro i st h; exact ⟨h, rfl⟩
  | cons hd tl ih =>
    intro i st h
    obtain ⟨g, p⟩ := hd
    simp only [hLoop] at h ⊢
    by_cases h1 : g > st.bestGood
    · rw [if_pos h1] at h ⊢
      obtain ⟨hnone, _⟩ := ih (i + 1) ⟨g, st.bestGood, some i, p⟩ h
      exact absurd hnone (by simp)
    · rw [if_neg h1] at h ⊢
      by_cases h2 : g > st.secondBestGood
      · rw [if_pos h2] at h ⊢
        obtain ⟨hnone, hbest⟩ := ih (i + 1) { st with secondBestGood := g } h
        exact ⟨hnone, hbest⟩
      · rw [if_neg h2] at h ⊢
        exact ih (i + 1) st h

/-- Characterisation of when the `ReconstructH` decision core accepts:
exactly when the line-898 condition holds on the final search state (with
the code's strict `bestGood > minTriangulated`). -/
lemma hDecisionSome_iff (N : ℕ) (hyps : List (ℕ × ℚ)) (minParallax : ℚ)
    (minTriangulated : ℕ) :
    (reconstructHDecision N hyps minParallax minTriangulated).isSome = true ↔
      (((hLoop 0 hInit hyps).secondBestGood : ℚ) <
          0.75 * ((hLoop 0 hInit hyps).bestGood : ℚ) ∧
       (hLoop 0 hInit hyps).bestParallax ≥ minParallax ∧
       (hLoop 0 hInit hyps).bestGood > minTriangulated ∧
       ((hLoop 0 hInit hyps).bestGood : ℚ) > 0.9 * (N : ℚ)) := by
  simp only [reconstructHDecision]
  by_cases hc : (((hLoop 0 hInit hyps).secondBestGood : ℚ) <
      0.75 * ((hLoop 0 hInit hyps).bestGood : ℚ) ∧
    (hLoop 0 hInit hyps).bestParallax ≥ minParallax ∧
    (hLoop 0 hInit hyps).bestGood > minTriangulated ∧
    ((hLoop 0 hInit hyps).bestGood : ℚ) > 0.9 * (N : ℚ))
  · rw [if_pos hc]
    refine iff_of_true ?_ hc
    cases hidx : (hLoop 0 hInit hyps).bestIdx with
    | none =>
      obtain ⟨_, hbest⟩ := hLoop_bestIdx_none hyps 0 hInit hidx
      have : (hLoop 0 hInit hyps).bestGood > minTriangulated := hc.2.2.1
      rw [hbest] at this
      exact absurd this (by simp [hInit])
    | some k => simp
  · rw [if_neg hc]
    simp [hc]

/-- Setting any entry of a boolean list to `false` cannot increase the
number of `true` entries. -/
lemma count_true_set_false_le (l : List Bool) (i : ℕ) :
    (l.set i false).count true ≤ l.count true := by
  induction l generalizing i with
  | nil => simp
  | cons b tl ih =>
    cases i with
    | zero => cases b <;> simp [List.set, List.count_cons]
    | succ j =>
      simp only [List.set, List.count_cons]
      have := ih j
      omega

/-- Setting any entry of a boolean list to `true` increases the number of
`true` entries by at most one. -/
lemma count_true_set_true_le (l : List Bool) (i : ℕ) :
    (l.set i true).count true ≤ l.count true + 1 := by
  induction l generalizing i with
  | nil => simp
  | cons b tl ih =>
    cases i with
    | zero => cases b <;> simp [List.set, List.count_cons]
    | succ j =>
      simp only [List.set, List.count_cons]
      have := ih j
      omega

/-- One `CheckRT` iteration keeps `vCosParallax` exactly `nGood` long. -/
lemma checkRTStep_len (R : Mat3) (t : V3) (Kc : Intrinsics) (th2 : ℚ)
    (st : RTState) (m : RTMatch) (h : st.cosList.length = st.nGood) :
    (checkRTStep R t Kc th2 st m).cosList.length =
      (checkRTStep R t Kc th2 st m).nGood := by
  simp only [checkRTStep]
  split
  · exact h
  · split
    · exact h
    · split
      · exact h
      · split
        · exact h
        · split
          · exact h
          · split
            · exact h
            · simp [h]

/-- One `CheckRT` iteration keeps the count of `true` flags in `vbGood`
at most `nGood`. -/
lemma checkRTStep_count (R : Mat3) (t : V3) (Kc : Intrinsics) (th2 : ℚ)
    (st : RTState) (m : RTMatch) (h : st.vbGood.count true ≤ st.nGood) :
    (checkRTStep R t Kc th2 st m).vbGood.count true ≤
      (checkRTStep R t Kc th2 st m).nGood := by
  simp only [checkRTStep]
  split
  · exact h
  · split
    · exact le_trans (count_true_set_false_le _ _) h
    · split
      · exact h
      · split
        · exact h
        · split
          · exact h
          · split
            · exact h
            · show (if m.cosPar < 0.99998 then st.vbGood.set m.first true
                      else st.vbGood).count true ≤ st.nGood + 1
              split
              · exact le_trans (count_true_set_true_le _ _) (Nat.succ_le_succ h)
              · exact le_trans h (Nat.le_succ _)

/-- Fold form of `checkRTStep_len`. -/
lemma checkRT_fold_len (R : Mat3) (t : V3) (Kc : Intrinsics) (th2 : ℚ)
    (ms : List RTMatch) :
    ∀ st : RTState, st.cosList.length = st.nGood →
      (ms.foldl (checkRTStep R t Kc th2) st).cosList.length =
        (ms.foldl (checkRTStep R t Kc th2) st).nGood := by
  induction ms with
  | nil => intro st h; exact h
  | cons m tl ih =>
    intro st h
    rw [List.foldl_cons]
    exact ih _ (checkRTStep_len R t Kc th2 st m h)

/-- Fold form of `checkRTStep_count`. -/
lemma checkRT_fold_count (R : Mat3) (t : V3) (Kc : Intrinsics) (th2 : ℚ)
    (ms : List RTMatch) :
    ∀ st : RTState, st.vbGood.count true ≤ st.nGood →
      (ms.foldl (checkRTStep R t Kc th2) st).vbGood.count true ≤
        (ms.foldl (checkRTStep R t Kc th2) st).nGood := by
  induction ms with
  | nil => intro st h; exact h
  | cons m tl ih =>
    intro st h
    rw [List.foldl_cons]
    exact ih _ (checkRTStep_count R t Kc th2 st m h)

/-- The `ReconstructLine` fold stays in-bounds and length-preserving when
every match index is below the vector length. -/
lemma reconstructLine_fold (ms : List LineMatch) :
    ∀ (st : LineOut) (n : ℕ),
      st.vLineS3D.length = n → st.vLineE3D.length = n →
      st.vbLineTriangulated.length = n →
      (∀ m ∈ ms, m.first < n) →
      ∃ out, ms.foldl reconstructLineStep (some st) = some out ∧
        out.vLineS3D.length = n ∧ out.vLineE3D.length = n ∧
        out.vbLineTriangulated.length = n := by
  induction ms with
  | nil =>
    intro st n h1 h2 h3 _
    exact ⟨st, rfl, h1, h2, h3⟩
  | cons m tl ih =>
    intro st n h1 h2 h3 hall
    have hm : m.first < n := hall m (List.mem_cons_self m tl)
    rw [List.foldl_cons]
    have hstep : reconstructLineStep (some st) m = some st ∨
        reconstructLineStep (some st) m =
          some ⟨st.vLineS3D.set m.first m.s3d, st.vLineE3D.set m.first m.e3d,
                st.vbLineTriangulated.set m.first true⟩ := by
      simp only [reconstructLineStep]
      by_cases ha : m.accepted = false
      · rw [if_pos ha]; exact Or.inl rfl
      · rw [if_neg ha]
        rw [setChecked, if_pos (by omega : m.first < st.vLineS3D.length),
            setChecked, if_pos (by omega : m.first < st.vLineE3D.length),
            setChecked, if_pos (by omega : m.first < st.vbLineTriangulated.length)]
        exact Or.inr rfl
    rcases hstep with hs | hs
    · rw [hs]
      exact ih st n h1 h2 h3 (fun x hx => hall x (List.mem_cons_of_mem m hx))
    · rw [hs]
      exact ih _ n (by simp [h1]) (by simp [h2]) (by simp [h3])
        (fun x hx => hall x (List.mem_cons_of_mem m hx))

/-! ### Claim theorems -/

/-- C1: `Initializer::Initialize` computes `RH = SH/(SH+SF)` and attempts
`ReconstructH` exactly when `RH > 0.40`, otherwise `ReconstructF`; in
particular a ratio of exactly 0.40 takes the fundamental-matrix path
(strict `>`). -/
theorem initialize_ratio_selection (SH SF : ℚ) :
    (initializeModelChoice SH SF = ReconModel.homography ↔ SH / (SH + SF) > 0.40) ∧
    (SH / (SH + SF) = 0.40 →
      initializeModelChoice SH SF = ReconModel.fundamental) := by
  constructor
  · by_cases h : SH / (SH + SF) > 0.40
    · simp [initializeModelChoice, h]
    · simp [initializeModelChoice, h]
  · intro h
    simp [initializeModelChoice, h]

/-- Witness for C1: at `SH = 2`, `SF = 3` the ratio is exactly 0.40 and the
fundamental path is taken. -/
theorem initialize_ratio_selection_witness :
    initializeModelChoice 2 3 = ReconModel.fundamental :=
  (initialize_ratio_selection 2 3).2 (by norm_num)

/-- C2 (amended): `ReconstructF` rejects — returns `false` with `R21`,
`t21` left empty and no partial output — whenever
`maxGood < max(trunc(0.9*N_inliers), 50)` (the code truncates `0.9*N` with
`static_cast<int>`) or more than one of the four hypotheses STRICTLY
exceeds 70% of `maxGood`. -/
theorem reconstructF_rejection (N g1 g2 g3 g4 : ℕ) (p1 p2 p3 p4 minParallax : ℚ)
    (minTriangulated : ℕ)
    (h : fMaxGood g1 g2 g3 g4 < fNMinGood N minTriangulated ∨
         fNSimilar g1 g2 g3 g4 > 1) :
    reconstructFDecision N g1 g2 g3 g4 p1 p2 p3 p4 minParallax minTriangulated
      = none := by
  simp only [reconstructFDecision]
  rw [if_pos h]

/-- Witness for C2: with `N = 100` and counts `(10,0,0,0)` the rejection
condition holds and the decision is `none`. -/
theorem reconstructF_rejection_witness :
    reconstructFDecision 100 10 0 0 0 5 0 0 0 1 50 = none :=
  reconstructF_rejection 100 10 0 0 0 5 0 0 0 1 50
    (Or.inl (by norm_num [fMaxGood, fNMinGood]))

/-- Counterexample to C2 as stated: (a) with `N = 57` and counts
`(51,0,0,0)`, `maxGood = 51 < max(0.9*57, 50) = 51.3`, so the claim demands
rejection, but the code (which compares against `trunc(0.9*57) = 51`)
accepts hypothesis 0; (b) with `N = 50` and counts `(50,35,0,0)`, two
hypotheses reach AT LEAST 70% of `maxGood` (`35 = 0.7*50`), so the claim
demands rejection, but the code counts strict `>` and accepts. -/
theorem reconstructF_rejection_cex :
    (claimRejectF 57 51 0 0 0 = true ∧
      reconstructFDecision 57 51 0 0 0 2 0 0 0 1 50 = some 0) ∧
    (claimRejectF 50 50 35 0 0 = true ∧
      reconstructFDecision 50 50 35 0 0 2 0 0 0 1 50 = some 0) := by
  refine ⟨⟨?_, ?_⟩, ⟨?_, ?_⟩⟩
  · norm_num [claimRejectF, specNSimilarGE, fMaxGood, le_max_iff, lt_max_iff]
  · norm_num [reconstructFDecision, fMaxGood, fNMinGood, fNSimilar]
  · norm_num [claimRejectF, specNSimilarGE, fMaxGood, le_max_iff, lt_max_iff]
  · norm_num [reconstructFDecision, fMaxGood, fNMinGood, fNSimilar]

/-- C3 (amended): `ReconstructH` accepts — returns `true` with `R`, `t`
and triangulations copied out — if and only if the second-best count is
`< 0.75*best` AND the best parallax is `>= minParallax` AND
`best > minTriangulated` (STRICT, so with `minTriangulated = 50` a best
count of exactly 50 is rejected and at least 51 is required) AND
`best > 0.9*N_inliers`. -/
theorem reconstructH_accept_iff (N : ℕ) (hyps : List (ℕ × ℚ))
    (minParallax : ℚ) (minTriangulated : ℕ) :
    (reconstructHDecision N hyps minParallax minTriangulated).isSome = true ↔
      (((hLoop 0 hInit hyps).secondBestGood : ℚ) <
          0.75 * ((hLoop 0 hInit hyps).bestGood : ℚ) ∧
       (hLoop 0 hInit hyps).bestParallax ≥ minParallax ∧
       (hLoop 0 hInit hyps).bestGood > minTriangulated ∧
       ((hLoop 0 hInit hyps).bestGood : ℚ) > 0.9 * (N : ℚ)) :=
  hDecisionSome_iff N hyps minParallax minTriangulated

/-- Witness for C3: with `N = 50`, a best count of 51 and parallax 2 the
amended conditions hold and the decision accepts. -/
theorem reconstructH_accept_iff_witness :
    (reconstructHDecision 50
      [(51, 2), (0, 0), (0, 0), (0, 0), (0, 0), (0, 0), (0, 0), (0, 0)]
      1 50).isSome = true :=
  (reconstructH_accept_iff 50
    [(51, 2), (0, 0), (0, 0), (0, 0), (0, 0), (0, 0), (0, 0), (0, 0)]
    1 50).mpr (by norm_num [hLoop, hInit])

/-- Counterexample to C3 as stated: with `N = 50` and a best hypothesis of
exactly 50 surviving triangulations (parallax 2, second-best 0), every
condition of the claim holds — in particular `best >= minTriangulated = 50`
— yet the code rejects, because line 898 requires the strict
`bestGood > minTriangulated`. -/
theorem reconstructH_accept_iff_cex :
    claimAcceptH 50
        [(50, 2), (0, 0), (0, 0), (0, 0), (0, 0), (0, 0), (0, 0), (0, 0)]
        1 50 = true ∧
    reconstructHDecision 50
        [(50, 2), (0, 0), (0, 0), (0, 0), (0, 0), (0, 0), (0, 0), (0, 0)]
        1 50 = none := by
  have h : hLoop 0 hInit
      [(50, 2), (0, 0), (0, 0), (0, 0), (0, 0), (0, 0), (0, 0), (0, 0)] =
      ⟨50, 0, some 0, 2⟩ := by
    norm_num [hLoop, hInit]
  constructor
  · simp only [claimAcceptH, h]
    norm_num
  · simp only [reconstructHDecision, h]
    norm_num

/-- C4 (amended): the parallax comparison against `minParallax` is
INCLUSIVE in `ReconstructH` (`bestParallax >= minParallax`, line 898) but
STRICT in `ReconstructF` (`parallax_i > minParallax`, lines 697-730): if no
hypothesis parallax exceeds `minParallax` the F path rejects, while the H
path accepts with the best parallax exactly equal to `minParallax` when the
other conditions hold. -/
theorem parallax_inclusive_H_strict_F :
    (∀ (N g1 g2 g3 g4 : ℕ) (p1 p2 p3 p4 minParallax : ℚ) (minTriangulated : ℕ),
      p1 ≤ minParallax → p2 ≤ minParallax → p3 ≤ minParallax → p4 ≤ minParallax →
      reconstructFDecision N g1 g2 g3 g4 p1 p2 p3 p4 minParallax minTriangulated
        = none) ∧
    (∀ (N : ℕ) (hyps : List (ℕ × ℚ)) (minParallax : ℚ) (minTriangulated : ℕ),
      ((hLoop 0 hInit hyps).secondBestGood : ℚ) <
          0.75 * ((hLoop 0 hInit hyps).bestGood : ℚ) →
      (hLoop 0 hInit hyps).bestParallax = minParallax →
      (hLoop 0 hInit hyps).bestGood > minTriangulated →
      ((hLoop 0 hInit hyps).bestGood : ℚ) > 0.9 * (N : ℚ) →
      (reconstructHDecision N hyps minParallax minTriangulated).isSome = true) := by
  constructor
  · intro N g1 g2 g3 g4 p1 p2 p3 p4 minParallax minTriangulated h1 h2 h3 h4
    simp only [reconstructFDecision]
    split
    · rfl
    · split
      · rw [if_neg (not_lt.mpr h1)]
      · split
        · rw [if_neg (not_lt.mpr h2)]
        · split
          · rw [if_neg (not_lt.mpr h3)]
          · split
            · rw [if_neg (not_lt.mpr h4)]
            · rfl
  · intro N hyps minParallax minTriangulated h1 h2 h3 h4
    exact (hDecisionSome_iff N hyps minParallax minTriangulated).mpr
      ⟨h1, ge_of_eq h2, h3, h4⟩

/-- Witness for C4: the F decision rejects at parallax exactly 1 even with
95 of 100 good triangulations, and the H decision accepts a best hypothesis
whose parallax is exactly 1. -/
theorem parallax_inclusive_H_strict_F_witness :
    reconstructFDecision 100 95 0 0 0 1 1 1 1 1 50 = none ∧
    (reconstructHDecision 50
      [(51, 1), (0, 0), (0, 0), (0, 0), (0, 0), (0, 0), (0, 0), (0, 0)]
      1 50).isSome = true := by
  have h : hLoop 0 hInit
      [(51, 1), (0, 0), (0, 0), (0, 0), (0, 0), (0, 0), (0, 0), (0, 0)] =
      ⟨51, 0, some 0, 1⟩ := by
    norm_num [hLoop, hInit]
  refine ⟨parallax_inclusive_H_strict_F.1 100 95 0 0 0 1 1 1 1 1 50
      (by norm_num) (by norm_num) (by norm_num) (by norm_num),
    parallax_inclusive_H_strict_F.2 50
      [(51, 1), (0, 0), (0, 0), (0, 0), (0, 0), (0, 0), (0, 0), (0, 0)]
      1 50 ?_ ?_ ?_ ?_⟩
  · rw [h]; norm_num
  · rw [h]
  · rw [h]; norm_num
  · rw [h]; norm_num

/-- Counterexample to C4 as stated: with `N = 100`, counts `(95,0,0,0)` and
winning parallax exactly `minParallax = 1`, every other gate passes (as the
accepted run with parallax 2 shows), yet `ReconstructF` rejects: the F-path
comparison is strict, not inclusive. -/
theorem parallax_inclusive_H_strict_F_cex :
    reconstructFDecision 100 95 0 0 0 1 0 0 0 1 50 = none ∧
    reconstructFDecision 100 95 0 0 0 2 0 0 0 1 50 = some 0 := by
  constructor
  · norm_num [reconstructFDecision, fMaxGood, fNMinGood, fNSimilar]
  · norm_num [reconstructFDecision, fMaxGood, fNMinGood, fNSimilar]

/-- C5: a `CheckFundamental` match is an inlier exactly when its chi-square
is at most `th = 3.841` in BOTH directions, while the score adds
`5.991 - chiSquare` for each direction that individually passes the 3.841
test even when the other direction fails — so an outlier can still
contribute a positive score (shown concretely), and `CheckHomography`
accumulates per passing direction the same way with threshold and score
constant both 5.991 (also shown failing one direction yet contributing). -/
theorem check_scores_per_direction :
    (∀ (F : Mat3) (sigma : ℚ) (m : MatchPts),
      (checkFundamentalMatch F sigma m).1 =
        (decide (fundChi1 F sigma m ≤ 3.841) && decide (fundChi2 F sigma m ≤ 3.841)) ∧
      (checkFundamentalMatch F sigma m).2 =
        (if fundChi1 F sigma m ≤ 3.841 then 5.991 - fundChi1 F sigma m else 0) +
        (if fundChi2 F sigma m ≤ 3.841 then 5.991 - fundChi2 F sigma m else 0)) ∧
    (∀ (H21 H12 : Mat3) (sigma : ℚ) (m : MatchPts),
      (checkHomographyMatch H21 H12 sigma m).1 =
        (decide (homChi1 H12 sigma m ≤ 5.991) && decide (homChi2 H21 sigma m ≤ 5.991)) ∧
      (checkHomographyMatch H21 H12 sigma m).2 =
        (if homChi1 H12 sigma m ≤ 5.991 then 5.991 - homChi1 H12 sigma m else 0) +
        (if homChi2 H21 sigma m ≤ 5.991 then 5.991 - homChi2 H21 sigma m else 0)) ∧
    ((checkFundamentalMatch ⟨1, 0, 0, 0, 1, 0, 0, 0, 1⟩ 1 ⟨0, 1, 0, 100⟩).1 = false ∧
     (checkFundamentalMatch ⟨1, 0, 0, 0, 1, 0, 0, 0, 1⟩ 1 ⟨0, 1, 0, 100⟩).2 > 0) ∧
    ((checkHomographyMatch ⟨2, 0, 0, 0, 1, 0, 0, 0, 1⟩ ⟨1/2, 0, 0, 0, 1, 0, 0, 0, 1⟩
        1 ⟨1, 0, 6, 0⟩).1 = false ∧
     (checkHomographyMatch ⟨2, 0, 0, 0, 1, 0, 0, 0, 1⟩ ⟨1/2, 0, 0, 0, 1, 0, 0, 0, 1⟩
        1 ⟨1, 0, 6, 0⟩).2 > 0) := by
  refine ⟨?_, ?_, ⟨?_, ?_⟩, ⟨?_, ?_⟩⟩
  · intro F sigma m
    by_cases h1 : fundChi1 F sigma m > 3.841 <;>
      by_cases h2 : fundChi2 F sigma m > 3.841 <;>
      constructor <;>
      simp [checkFundamentalMatch, h1, h2, not_le.mpr, not_lt.mp,
        le_of_not_lt, not_le_of_lt]
  · intro H21 H12 sigma m
    by_cases h1 : homChi1 H12 sigma m > 5.991 <;>
      by_cases h2 : homChi2 H21 sigma m > 5.991 <;>
      constructor <;>
      simp [checkHomographyMatch, h1, h2, not_le.mpr, not_lt.mp,
        le_of_not_lt, not_le_of_lt]
  · norm_num [checkFundamentalMatch, fundChi1, fundChi2]
  · norm_num [checkFundamentalMatch, fundChi1, fundChi2]
  · norm_num [checkHomographyMatch, homChi1, homChi2]
  · norm_num [checkHomographyMatch, homChi1, homChi2]

/-- No `true` flag is set in the freshly initialised `vbGood`. -/
lemma count_true_replicate_false (n : ℕ) :
    (List.replicate n false).count true = 0 := by
  induction n with
  | zero => rfl
  | succ k ih => simp [List.replicate_succ, List.count_cons, ih]

/-- C6: `CheckRT` selects, as the argument of its `acos`-in-degrees
parallax output, the sorted cos-parallax value at index
`min(50, nGood - 1)` — index 50 (the 51st smallest) when there are at
least 51 survivors and the last index otherwise — and takes the
`parallax = 0` branch (here `parallaxCos = none`) exactly when no match
survives. -/
theorem checkRT_parallax_selection (R : Mat3) (t : V3) (Kc : Intrinsics)
    (nKeys1 : ℕ) (th2 : ℚ) (ms : List RTMatch) :
    ((checkRT R t Kc nKeys1 th2 ms).nGood = 0 →
      (checkRT R t Kc nKeys1 th2 ms).parallaxCos = none) ∧
    (0 < (checkRT R t Kc nKeys1 th2 ms).nGood →
      (checkRT R t Kc nKeys1 th2 ms).parallaxCos =
        some ((sortQ (checkRT R t Kc nKeys1 th2 ms).cosList).getD
          (min 50 ((checkRT R t Kc nKeys1 th2 ms).nGood - 1)) 0)) ∧
    (51 ≤ (checkRT R t Kc nKeys1 th2 ms).nGood →
      min 50 ((checkRT R t Kc nKeys1 th2 ms).nGood - 1) = 50) ∧
    (0 < (checkRT R t Kc nKeys1 th2 ms).nGood →
      (checkRT R t Kc nKeys1 th2 ms).nGood ≤ 50 →
      min 50 ((checkRT R t Kc nKeys1 th2 ms).nGood - 1) =
        (checkRT R t Kc nKeys1 th2 ms).nGood - 1) := by
  have hlen : (ms.foldl (checkRTStep R t Kc th2)
        ⟨0, [], List.replicate nKeys1 ⟨0, 0, 0⟩, List.replicate nKeys1 false⟩).cosList.length =
      (ms.foldl (checkRTStep R t Kc th2)
        ⟨0, [], List.replicate nKeys1 ⟨0, 0, 0⟩, List.replicate nKeys1 false⟩).nGood :=
    checkRT_fold_len R t Kc th2 ms _ rfl
  simp only [checkRT]
  refine ⟨?_, ?_, ?_, ?_⟩
  · intro h
    rw [if_neg (by omega)]
  · intro h
    rw [if_pos h, hlen]
  · intro h
    omega
  · intro h h2
    omega

/-- Witness for C6: a run with one survivor returns the selected sorted
cosine at index `min(50, nGood - 1) = 0`. -/
theorem checkRT_parallax_selection_witness :
    (checkRT ⟨1, 0, 0, 0, 1, 0, 0, 0, 1⟩ ⟨0, 0, 0⟩ ⟨1, 1, 0, 0⟩ 1 1
      [⟨true, 0, 0, 0, 0, 0, some ⟨0, 0, 1⟩, 1/2⟩]).parallaxCos =
      some ((sortQ (checkRT ⟨1, 0, 0, 0, 1, 0, 0, 0, 1⟩ ⟨0, 0, 0⟩ ⟨1, 1, 0, 0⟩ 1 1
        [⟨true, 0, 0, 0, 0, 0, some ⟨0, 0, 1⟩, 1/2⟩]).cosList).getD
        (min 50 ((checkRT ⟨1, 0, 0, 0, 1, 0, 0, 0, 1⟩ ⟨0, 0, 0⟩ ⟨1, 1, 0, 0⟩ 1 1
          [⟨true, 0, 0, 0, 0, 0, some ⟨0, 0, 1⟩, 1/2⟩]).nGood - 1)) 0) := by
  refine (checkRT_parallax_selection _ _ _ _ _ _).2.1 ?_
  have hstep : checkRTStep ⟨1, 0, 0, 0, 1, 0, 0, 0, 1⟩ ⟨0, 0, 0⟩ ⟨1, 1, 0, 0⟩ 1
      ⟨0, [], List.replicate 1 ⟨0, 0, 0⟩, List.replicate 1 false⟩
      ⟨true, 0, 0, 0, 0, 0, some ⟨0, 0, 1⟩, 1/2⟩ = ⟨1, [1/2], [⟨0, 0, 1⟩], [true]⟩ := by
    norm_num [checkRTStep, mat3App, v3Add]
  simp only [checkRT, List.foldl]
  rw [hstep]
  decide

/-- C10: in `CheckRT`, a match that passes the cheirality and reprojection
checks but has cos-parallax at or above 0.99998 is counted in `nGood` and
its 3D point stored in `vP3D` while its `vbGood` flag stays `false`; hence
for every input `nGood` is at least the number of `true` flags in
`vbGood`, and the concrete high-cos-parallax run shows the inequality can
be strict (`nGood = 1`, zero `true` flags, point stored). -/
theorem checkRT_nGood_ge_vbGood_count :
    (∀ (R : Mat3) (t : V3) (Kc : Intrinsics) (nKeys1 : ℕ) (th2 : ℚ)
        (ms : List RTMatch),
      ((checkRT R t Kc nKeys1 th2 ms).vbGood.count true) ≤
        (checkRT R t Kc nKeys1 th2 ms).nGood) ∧
    ((checkRT ⟨1, 0, 0, 0, 1, 0, 0, 0, 1⟩ ⟨0, 0, 0⟩ ⟨1, 1, 0, 0⟩ 1 1
        [⟨true, 0, 0, 0, 0, 0, some ⟨0, 0, 1⟩, 1⟩]).nGood = 1 ∧
     (checkRT ⟨1, 0, 0, 0, 1, 0, 0, 0, 1⟩ ⟨0, 0, 0⟩ ⟨1, 1, 0, 0⟩ 1 1
        [⟨true, 0, 0, 0, 0, 0, some ⟨0, 0, 1⟩, 1⟩]).vbGood = [false] ∧
     (checkRT ⟨1, 0, 0, 0, 1, 0, 0, 0, 1⟩ ⟨0, 0, 0⟩ ⟨1, 1, 0, 0⟩ 1 1
        [⟨true, 0, 0, 0, 0, 0, some ⟨0, 0, 1⟩, 1⟩]).vP3D = [⟨0, 0, 1⟩]) := by
  constructor
  · intro R t Kc nKeys1 th2 ms
    simp only [checkRT]
    exact checkRT_fold_count R t Kc th2 ms _
      (by rw [count_true_replicate_false])
  · have hstep : checkRTStep ⟨1, 0, 0, 0, 1, 0, 0, 0, 1⟩ ⟨0, 0, 0⟩ ⟨1, 1, 0, 0⟩ 1
        ⟨0, [], List.replicate 1 ⟨0, 0, 0⟩, List.replicate 1 false⟩
        ⟨true, 0, 0, 0, 0, 0, some ⟨0, 0, 1⟩, 1⟩ = ⟨1, [1], [⟨0, 0, 1⟩], [false]⟩ := by
      norm_num [checkRTStep, mat3App, v3Add]
    refine ⟨?_, ?_, ?_⟩ <;> (simp only [checkRT, List.foldl]; rw [hstep])

/-- Witness for C10's universal part at a concrete input: the count of
`true` flags is bounded by `nGood` on the strict example. -/
theorem checkRT_nGood_ge_vbGood_count_witness :
    ((checkRT ⟨1, 0, 0, 0, 1, 0, 0, 0, 1⟩ ⟨0, 0, 0⟩ ⟨1, 1, 0, 0⟩ 1 1
      [⟨true, 0, 0, 0, 0, 0, some ⟨0, 0, 1⟩, 1⟩]).vbGood.count true) ≤
      (checkRT ⟨1, 0, 0, 0, 1, 0, 0, 0, 1⟩ ⟨0, 0, 0⟩ ⟨1, 1, 0, 0⟩ 1 1
        [⟨true, 0, 0, 0, 0, 0, some ⟨0, 0, 1⟩, 1⟩]).nGood :=
  checkRT_nGood_ge_vbGood_count.1 _ _ _ _ _ _

/-- C9: `ReconstructLine` resizes its three output vectors to the
reference frame's POINT-feature count and writes each accepted line match
at index `vLineMatches[i].first`, so all writes are in bounds when every
matched reference-frame line index is below that point count (and the
outputs keep length `nKeys1`), while an input with a line index at or
beyond the point count drives a write out of bounds (`none`). -/
theorem reconstructLine_bounds :
    (∀ (nKeys1 : ℕ) (ms : List LineMatch), (∀ m ∈ ms, m.first < nKeys1) →
      ∃ out, reconstructLine nKeys1 ms = some out ∧
        out.vLineS3D.length = nKeys1 ∧ out.vLineE3D.length = nKeys1 ∧
        out.vbLineTriangulated.length = nKeys1) ∧
    reconstructLine 2 [⟨5, 0, true, ⟨1, 1, 1⟩, ⟨2, 2, 2⟩⟩] = none := by
  constructor
  · intro nKeys1 ms hall
    exact reconstructLine_fold ms _ nKeys1 (by simp) (by simp) (by simp) hall
  · decide

/-- Witness for C9: one accepted line match with reference index 1 below
the point count 3 stays in bounds and the outputs have length 3. -/
theorem reconstructLine_bounds_witness :
    ∃ out, reconstructLine 3 [⟨1, 2, true, ⟨0, 0, 1⟩, ⟨0, 0, 2⟩⟩] = some out ∧
      out.vLineS3D.length = 3 ∧ out.vLineE3D.length = 3 ∧
      out.vbLineTriangulated.length = 3 :=
  reconstructLine_bounds.1 3 [⟨1, 2, true, ⟨0, 0, 1⟩, ⟨0, 0, 2⟩⟩] (by decide)

/-- C7 (amended): `KeyFrameCulling` flags bad exactly the covisible
keyframes other than the initial one (`mnId = 0`) whose redundant valid
MapPoints STRICTLY exceed 90% of their valid MapPoints (equivalently
`10*nRedundant > 9*nMPs`), a MapPoint being redundant when it has more
than 3 observations in total and at least 3 keyframes other than the
culled one observe it at octave at most one level coarser
(`scaleLeveli <= scaleLevel+1`, the code's same-or-finer-scale test);
exactly 90% is NOT flagged. -/
theorem keyframe_culling_iff :
    (∀ covis : List KeyFrameM, keyFrameCulling covis = covis.map kfCulled) ∧
    (∀ kf : KeyFrameM, kfCulled kf = true ↔
      (kf.id ≠ 0 ∧ 10 * (kfStats kf).2 > 9 * (kfStats kf).1)) := by
  constructor
  · intro covis
    rfl
  · intro kf
    unfold kfCulled
    rw [Bool.and_eq_true, decide_eq_true_eq, decide_eq_true_eq]
    constructor
    · rintro ⟨h0, hq⟩
      refine ⟨h0, ?_⟩
      have hcast : ((9 * (kfStats kf).1 : ℕ) : ℚ) < ((10 * (kfStats kf).2 : ℕ) : ℚ) := by
        push_cast
        linarith
      exact_mod_cast hcast
    · rintro ⟨h0, hq⟩
      refine ⟨h0, ?_⟩
      have hcast : ((9 * (kfStats kf).1 : ℕ) : ℚ) < ((10 * (kfStats kf).2 : ℕ) : ℚ) := by
        exact_mod_cast hq
      push_cast at hcast
      linarith

/-- Witness for C7: a non-initial keyframe all of whose 10 MapPoints are
redundant (100% > 90%) is flagged. -/
theorem keyframe_culling_iff_witness :
    kfCulled ⟨1, List.replicate 10 (some ptRedundantEx)⟩ = true :=
  (keyframe_culling_iff.2 ⟨1, List.replicate 10 (some ptRedundantEx)⟩).mpr
    ⟨by decide, by decide⟩

/-- Counterexample to C7 as stated: `kfCullBoundary` is a non-initial
covisible keyframe with exactly 90% of its valid MapPoints (9 of 10)
observed by 3 other keyframes at equal scale, so the claim's
at-least-90% condition holds, yet `KeyFrameCulling` does not flag it:
line 1892 requires strictly more than `0.9*nMPs`. -/
theorem keyframe_culling_cex :
    claimCullCondition kfCullBoundary = true ∧
    keyFrameCulling [kfCullBoundary] = [false] := by
  constructor
  · decide
  · have hstats : kfStats kfCullBoundary = (10, 9) := by decide
    simp only [keyFrameCulling, List.map_cons, List.map_nil, kfCulled, hstats]
    norm_num

/-- C8 (amended): after `RequestStop`, a `Release` on a running mapper
(`mbFinished = false`, as set by `Run`) with no intervening
`InsertKeyFrame` empties the keyframe queue and restores `mbStopped` and
`mbStopRequested` to their constructor values, but it does NOT restore
every flag: `mbAbortBA` stays `true` (set by `RequestStop`, never cleared
by `Release`), unlike the constructor's `false`; the remaining flags are
simply unchanged. -/
theorem release_after_requestStop (s : LMState) (h : s.mbFinished = false) :
    (lmRelease (lmRequestStop s)).mlNewKeyFrames = [] ∧
    (lmRelease (lmRequestStop s)).mbStopped = false ∧
    (lmRelease (lmRequestStop s)).mbStopRequested = false ∧
    (lmRelease (lmRequestStop s)).mbAbortBA = true ∧
    (lmRelease (lmRequestStop s)).mbFinished = false ∧
    (lmRelease (lmRequestStop s)).mbResetRequested = s.mbResetRequested ∧
    (lmRelease (lmRequestStop s)).mbFinishRequested = s.mbFinishRequested ∧
    (lmRelease (lmRequestStop s)).mbNotStop = s.mbNotStop ∧
    (lmRelease (lmRequestStop s)).mbAcceptKeyFrames = s.mbAcceptKeyFrames := by
  simp [lmRelease, lmRequestStop, h]

/-- Witness for C8 at the started mapper state `lmRunning`. -/
theorem release_after_requestStop_witness :
    (lmRelease (lmRequestStop lmRunning)).mlNewKeyFrames = [] ∧
    (lmRelease (lmRequestStop lmRunning)).mbStopped = false ∧
    (lmRelease (lmRequestStop lmRunning)).mbStopRequested = false ∧
    (lmRelease (lmRequestStop lmRunning)).mbAbortBA = true ∧
    (lmRelease (lmRequestStop lmRunning)).mbFinished = false ∧
    (lmRelease (lmRequestStop lmRunning)).mbResetRequested = lmRunning.mbResetRequested ∧
    (lmRelease (lmRequestStop lmRunning)).mbFinishRequested = lmRunning.mbFinishRequested ∧
    (lmRelease (lmRequestStop lmRunning)).mbNotStop = lmRunning.mbNotStop ∧
    (lmRelease (lmRequestStop lmRunning)).mbAcceptKeyFrames = lmRunning.mbAcceptKeyFrames :=
  release_after_requestStop lmRunning rfl

/-- Counterexample to C8 as stated: on a running mapper, `Release` after
`RequestStop` leaves `mbAbortBA = true` while the constructor value is
`false`; and on a freshly constructed mapper (`mbFinished = true`)
`Release` is a no-op, so even `mbStopRequested` stays `true`. -/
theorem release_after_requestStop_cex :
    ((lmRelease (lmRequestStop lmRunning)).mbAbortBA = true ∧
      lmConstructed.mbAbortBA = false) ∧
    (lmRelease (lmRequestStop lmConstructed)).mbStopRequested = true := by
  decide

end PLSLAM
